import Mathlib

/-!
Shallow embedding of the xmatters-go HTTP client library core
(request execution, client option configuration, pagination traversal,
and group-roster reconciliation), together with theorems settling the
frozen claims about the library.

Sources embedded:
  - src/xmatters.go        (Request, newClient, constants)
  - src/errors.go          (XMattersError, sentinel errors, newXMattersError)
  - src/api_options.go     (WithRateLimit, WithRetryPolicy, parseOptions)
  - src/groups.go          (GetGroupPaginationSet and the Group data model)
  - src/unnamed/part_003   (group roster: GetGroupRosterPaginationSet,
                            PushGroupRoster, ContainsMember)

External effects (network transport, JSON encoding/decoding performed by
the Go standard library) are modelled as oracle functions supplied by the
environment; the control flow of each embedded function follows the Go
source line by line.
-/

namespace XmattersGo

/-- Raw response/request body bytes (Go `[]byte`). -/
abbrev Bytes := List Nat

/-- src/xmatters.go: `defaultBasePath = "/api/xm/1"`. -/
def defaultBasePath : String := "/api/xm/1"

/-! ## src/errors.go -/

/-- src/errors.go: `XMattersError` — the structured error shape
`{code, reason, message, subcode}`. -/
structure XMattersError where
  code : Int
  reason : String
  message : String
  subcode : String
  deriving DecidableEq, Repr

/-- src/errors.go: `ErrNoContent` — the generic 204 sentinel error. -/
def ErrNoContent : XMattersError :=
  { code := 204
    reason := "No Content"
    message := "A resource was not found in response to a DELETE request."
    subcode := "" }

/-- src/errors.go: `ErrInavlidCredentials` — the generic 401 sentinel error
(the misspelling is the source's). -/
def ErrInavlidCredentials : XMattersError :=
  { code := 401
    reason := "Unauthorized"
    message := "Invalid Credentials"
    subcode := "" }

/-- src/errors.go: `errUnmarshalError` message constant. -/
def errUnmarshalError : String := "error unmarshalling the JSON response"

/-- Go `error` values produced by the embedded functions.  Each wrapped
`fmt.Errorf` site in the source gets its own constructor; `xm` carries
`XMattersError` values (the sentinels and server-reported structured
errors). -/
inductive GoError where
  /-- An `XMattersError` value used as a Go error. -/
  | xm (e : XMattersError)
  /-- src/xmatters.go: "error marshalling body to JSON: %w". -/
  | marshalBody
  /-- src/xmatters.go: "HTTP request creation failed: %w". -/
  | newRequestFailed
  /-- src/xmatters.go: "HTTP request failed: %w". -/
  | httpRequestFailed
  /-- src/xmatters.go: "unable to read request body: %w". -/
  | readBodyFailed
  /-- src/errors.go `newXMattersError`: "... in xMatters Error Construction:
  %w \n%s" — the error-body decode failure wrapped together with the raw
  body bytes. -/
  | errBodyDecodeFailed (raw : Bytes)
  deriving DecidableEq, Repr

/-- src/errors.go: `newUnmarshalError` — `XMattersError` with code 0 and a
reason naming the calling function (obtained via `runtime.Caller` in Go;
here the caller passes its own name). -/
def newUnmarshalError (fn : String) : GoError :=
  .xm { code := 0
        reason := "Internal Server Error in " ++ fn
        message := errUnmarshalError
        subcode := "" }

/-- src/errors.go: `newXMattersError` — try to decode the error body as an
`XMattersError`; on decode failure wrap the failure together with the raw
body.  `decode` is the oracle for `json.Unmarshal` into `XMattersError`. -/
def newXMattersError (decode : Bytes → Option XMattersError) (body : Bytes) : GoError :=
  match decode body with
  | Option.none => .errBodyDecodeFailed body
  | some xmerr => .xm xmerr

/-! ## src/xmatters.go: the Request executor -/

/-- The dynamic Go value passed as `body interface{}` to `Request`,
described by the outcomes of the type inspections the source performs:
`asReader` is `some r` when `body.(io.Reader)` succeeds (with `r` the bytes
the reader yields), `asBytes` is `some b` when `body.([]byte)` succeeds,
and `marshalJSON` is the outcome of `json.Marshal(body)`. -/
structure GoValue where
  asReader : Option Bytes
  asBytes : Option Bytes
  marshalJSON : Except Unit Bytes
  deriving Repr

/-- The outcome of `io.ReadAll(response.Body)` together with the status
code of an HTTP response. -/
structure HttpResponse where
  statusCode : Nat
  bodyRead : Except Unit Bytes
  deriving Repr

/-- The outcome of `xmatters.httpClient.Do(request)`. -/
inductive DoOutcome where
  /-- `Do` returned a non-nil error. -/
  | fail
  /-- `Do` returned a response. -/
  | ok (resp : HttpResponse)
  deriving Repr

/-- Environment for one execution of `Request`: the outcomes of the calls
the source makes into the Go standard library and the network. -/
structure RequestEnv where
  /-- Whether `http.NewRequest` returns a non-nil error. -/
  newRequestFails : Bool
  /-- The outcome of `httpClient.Do`. -/
  doOutcome : DoOutcome
  /-- `json.Unmarshal` of an error body into `XMattersError`
  (used by `newXMattersError`). -/
  decodeXMattersError : Bytes → Option XMattersError

/-- Observable effects of one execution of `Request`.  `rateLimiterWait`
is the rate-limiter permit acquisition the specification describes; the
embedded `Request` below never emits it because the Go source contains no
call to the client's `rateLimiter` (the field is assigned by
`WithRateLimit` and never read). -/
inductive Effect where
  | rateLimiterWait
  | httpDo
  deriving DecidableEq, Repr

/-- Go's `([]byte, error)` return pair of `Request`. -/
structure RequestResult where
  body : Option Bytes
  err : Option GoError
  deriving DecidableEq, Repr

/-- src/xmatters.go lines 161-179: the body-selection if-chain of
`Request`.  A non-nil body is inspected in order: `io.Reader` first, then
`[]byte`, then `json.Marshal`; a marshal failure aborts with an error. -/
def buildReqBody (body : Option GoValue) : Except GoError (Option Bytes) :=
  match body with
  | Option.none => .ok Option.none
  | some v =>
    match v.asReader with
    | some r => .ok (some r)
    | Option.none =>
      match v.asBytes with
      | some b => .ok (some b)
      | Option.none =>
        match v.marshalJSON with
        | .error _ => .error .marshalBody
        | .ok jsonBody => .ok (some jsonBody)

/-- src/xmatters.go lines 159-223: `Request`.  Returns the Go result pair
together with the list of effects performed.  The source issues the HTTP
call directly after building the request; there is no rate-limiter
acquisition anywhere in its body. -/
def Request (body : Option GoValue) (env : RequestEnv) : RequestResult × List Effect :=
  match buildReqBody body with
  | .error e => (⟨Option.none, some e⟩, [])
  | .ok _ =>
    if env.newRequestFails then
      (⟨Option.none, some .newRequestFailed⟩, [])
    else
      match env.doOutcome with
      | .fail => (⟨Option.none, some .httpRequestFailed⟩, [Effect.httpDo])
      | .ok resp =>
        if resp.statusCode = 204 then
          (⟨Option.none, some (.xm ErrNoContent)⟩, [Effect.httpDo])
        else if resp.statusCode = 401 then
          (⟨Option.none, some (.xm ErrInavlidCredentials)⟩, [Effect.httpDo])
        else
          match resp.bodyRead with
          | .error _ => (⟨Option.none, some .readBodyFailed⟩, [Effect.httpDo])
          | .ok respBody =>
            if resp.statusCode ≠ 200 ∧ resp.statusCode ≠ 201 then
              (⟨Option.none, some (newXMattersError env.decodeXMattersError respBody)⟩,
               [Effect.httpDo])
            else
              (⟨some respBody, Option.none⟩, [Effect.httpDo])

/-! ## src/api_options.go and src/xmatters.go: client construction -/

/-- src/xmatters.go: `RetryPolicy` — delays are stored in nanoseconds
(Go `time.Duration`). -/
structure RetryPolicy where
  maxRetries : Int
  minRetryDelayNs : Int
  maxRetryDelayNs : Int
  deriving DecidableEq, Repr

/-- src/api_options.go `WithRateLimit`: `rate.NewLimiter(rate.Limit(rps), 1)`.
The requests-per-second value is a Go float64; the claims only mention the
value 4, so it is embedded as a rational. -/
structure RateLimiterCfg where
  rps : Rat
  burst : Nat
  deriving DecidableEq, Repr

/-- The configuration-relevant state of an `XMattersAPI` client: the
fields of the struct the embedded options and constructors touch, plus
the retry settings of the `retryablehttp` client installed as
`httpClient`.  The latter three fields model the underlying library's
client configuration; `newClient` installs
`retryablehttp.NewClient().StandardClient()` and never modifies its retry
settings, so they keep the library defaults (RetryMax 4, RetryWaitMin 1s,
RetryWaitMax 30s). -/
structure ClientState where
  baseURL : Option String
  userAgent : Option String
  rateLimiter : Option RateLimiterCfg
  retryPolicy : RetryPolicy
  httpClientRetryMax : Nat
  httpClientRetryWaitMinMs : Nat
  httpClientRetryWaitMaxMs : Nat
  deriving DecidableEq, Repr

/-- src/api_options.go: `Option` (a functional option).  Every option
constructor in the source returns a nil error, so options are embedded as
plain state transformers. -/
def ClientOption := ClientState → ClientState

/-- src/api_options.go lines 40-49: `WithRateLimit` — stores a limiter
with the given rate and burst 1 on the client.  (The stored limiter is
never read by any other function in the source.) -/
def WithRateLimit (rps : Rat) : ClientOption :=
  fun c => { c with rateLimiter := some { rps := rps, burst := 1 } }

/-- Nanoseconds per second (Go `time.Second`). -/
def nsPerSecond : Int := 1000000000

/-- src/api_options.go lines 53-63: `WithRetryPolicy` — stores the given
policy on the client.  (The stored policy is never read by any other
function in the source; in particular `newClient` never installs it on the
`retryablehttp` client.) -/
def WithRetryPolicy (maxRetries minRetryDelaySecs maxRetryDelaySecs : Int) : ClientOption :=
  fun c =>
    { c with
      retryPolicy :=
        { maxRetries := maxRetries
          minRetryDelayNs := minRetryDelaySecs * nsPerSecond
          maxRetryDelayNs := maxRetryDelaySecs * nsPerSecond } }

/-- src/api_options.go lines 80-92: `parseOptions` — applies the options
in order. -/
def parseOptions (c : ClientState) (opts : List ClientOption) : ClientState :=
  opts.foldl (fun s o => o s) c

/-- Default retry ceiling of a `retryablehttp.NewClient()` (RetryMax). -/
def retryablehttpDefaultRetryMax : Nat := 4

/-- src/xmatters.go lines 86-107: `newClient` — builds the client state
and applies the options.  The source assigns `BaseURL`, `UserAgent`,
`httpClient` (a fresh `retryablehttp` standard client with library-default
retry settings) and `headers`; it never assigns `rateLimiter` (which stays
nil) or `retryPolicy` (which stays the zero value).  The `retryClient`
built on its first two lines is discarded without being used. -/
def newClient (hostname : String) (opts : List ClientOption) : ClientState :=
  parseOptions
    { baseURL := some ("https://" ++ hostname ++ defaultBasePath)
      userAgent := some "xmatters-go/1"
      rateLimiter := Option.none
      retryPolicy := { maxRetries := 0, minRetryDelayNs := 0, maxRetryDelayNs := 0 }
      httpClientRetryMax := retryablehttpDefaultRetryMax
      httpClientRetryWaitMinMs := 1000
      httpClientRetryWaitMaxMs := 30000 }
    opts

/-- Modelled from the spec: the retry transport (spec sections 4.4 and 8)
performs up to `1 + retryMax` attempts, returning the first successful
body, or `none` when every permitted attempt failed.  `outcomes` lists the
transport's per-attempt results in order (`none` = failed attempt).  The
transport loop itself lives in the vendored `retryablehttp` library, not
under src/. -/
def retryTransport (retryMax : Nat) (outcomes : List (Option Bytes)) : Option Bytes :=
  match retryMax, outcomes with
  | _, [] => Option.none
  | 0, o :: _ => o
  | n + 1, o :: rest =>
    match o with
    | some b => some b
    | Option.none => retryTransport n rest

/-! ## Go strings.ReplaceAll with an empty replacement

The pagination walkers derive the follow-up URI with
`strings.ReplaceAll(next, defaultBasePath, "")`, one left-to-right scan
replacing every non-overlapping occurrence of the pattern.  The scan is
embedded over character lists; the `Nat` argument bounds the scan length
and is instantiated with the string length — each recursive step consumes
at least one character, so the bound is never reached. -/

/-- One left-to-right scan of `strings.ReplaceAll(s, old, "")`: whenever
`old` is a (non-empty) prefix of the remaining input, delete it and
continue after it; otherwise keep the character and move on. -/
def replaceScan (old : List Char) : Nat → List Char → List Char
  | _, [] => []
  | 0, s => s
  | n + 1, c :: rest =>
    if old ≠ [] ∧ old.isPrefixOf (c :: rest) then
      replaceScan old n (List.drop old.length (c :: rest))
    else
      c :: replaceScan old n rest

/-- Go `strings.ReplaceAll(s, old, "")`. -/
def goReplaceAllEmpty (s old : String) : String :=
  String.mk (replaceScan old.toList s.toList.length s.toList)

/-- src/groups.go line 179 (and the identical lines of the sibling
walkers): `strings.ReplaceAll(next, defaultBasePath, "")`. -/
def stripNextUri (next : String) : String :=
  goReplaceAllEmpty next defaultBasePath

/-! ## Pagination data model (src/unnamed/part_003 tail, src/groups.go) -/

/-- `PaginationLinks` — links to the current, previous, and next pages. -/
structure PaginationLinks where
  next : Option String
  previous : Option String
  selfLink : Option String
  deriving DecidableEq, Repr

/-- `Pagination` — a page of results; `links` is a `*PaginationLinks` in
Go and is nil (`none`) when the JSON omits it. -/
structure Pagination where
  count : Option Int
  total : Option Int
  links : Option PaginationLinks
  deriving DecidableEq, Repr

/-- `ReferenceById`. -/
structure ReferenceById where
  id : Option String
  deriving DecidableEq, Repr

/-- `ReferenceByName`. -/
structure ReferenceByName where
  name : Option String
  deriving DecidableEq, Repr

/-- src/services.go: `ServiceLink`. -/
structure ServiceLink where
  label : Option String
  url : Option String
  deriving DecidableEq, Repr

/-- src/unnamed/part_003: `GroupReference`. -/
structure GroupReference where
  id : Option String
  targetName : Option String
  recipientType : Option String
  groupType : Option String
  deriving DecidableEq, Repr

/-- src/services.go: `Service`. -/
structure Service where
  id : Option String
  targetName : Option String
  recipientType : Option String
  serviceType : Option String
  serviceTier : Option String
  description : Option String
  serviceLinks : List ServiceLink
  ownedBy : Option GroupReference
  externallyOwned : Option Bool
  status : Option String
  deriving DecidableEq, Repr

/-- src/groups.go: `Group`.  Pointer fields become `Option`, slice fields
become lists (a nil Go slice and an empty one are not distinguished). -/
structure Group where
  id : Option String
  targetName : Option String
  status : Option String
  description : Option String
  groupType : Option String
  allowDuplicates : Option Bool
  timezone : Option String
  site : Option ReferenceById
  observedByAll : Option Bool
  observers : List ReferenceByName
  useDefaultDevices : Option Bool
  supervisors : List ReferenceById
  services : List Service
  externalKey : Option String
  externallyOwned : Option Bool
  deriving DecidableEq, Repr

/-- src/groups.go: `GroupPagination` — embeds `*Pagination` (a pointer, so
`none` when absent from the JSON) plus the element list. -/
structure GroupPagination where
  pagination : Option Pagination
  groups : List Group
  deriving DecidableEq, Repr

/-- The combined outcome of one page fetch: the `Request` call followed by
`json.Unmarshal` into the page type `α`.  `requestErr` is a non-nil error
from `Request`; `decodeErr` is an unmarshal failure of the returned
bytes. -/
inductive FetchOutcome (α : Type) where
  | requestErr (e : GoError)
  | decodeErr
  | page (p : α)
  deriving DecidableEq, Repr

/-- The outcome of a Go function returning `(α, error)` that can also
crash: `ok` and `err` mirror the Go return pair (`err` keeps the value
returned alongside the error), `nilPanic` is a nil-pointer dereference,
and `divergent` means the recursion exceeded the model's step bound. -/
inductive GoOutcome (α : Type) where
  | ok (val : α)
  | err (val : α) (e : GoError)
  | nilPanic
  | divergent
  deriving DecidableEq, Repr

/-- src/groups.go lines 159-190: `GetGroupPaginationSet`.  `fetch` gives,
per URI, the combined outcome of the `Request` call and the
`json.Unmarshal` of its bytes; the `Nat` argument is recursion fuel (the
Go recursion is bounded only by the page chain itself).  The source
dereferences `groupPagination.Pagination.Links.Next` without nil checks:
a missing pagination envelope or a missing links object is a nil-pointer
dereference (`nilPanic`).  On any error the source returns the empty
slice `[]*Group{}` together with the error, discarding `groupList`. -/
def GetGroupPaginationSet (fetch : String → FetchOutcome GroupPagination) :
    Nat → String → GoOutcome (List Group)
  | 0, _ => .divergent
  | fuel + 1, uri =>
    match fetch uri with
    | .requestErr e => .err [] e
    | .decodeErr => .err [] (newUnmarshalError "GetGroupPaginationSet")
    | .page groupPagination =>
      match groupPagination.pagination with
      | Option.none => .nilPanic
      | some pag =>
        match pag.links with
        | Option.none => .nilPanic
        | some links =>
          match links.next with
          | Option.none => .ok groupPagination.groups
          | some next =>
            match GetGroupPaginationSet fetch fuel (stripNextUri next) with
            | .ok nextSet => .ok (groupPagination.groups ++ nextSet)
            | .err _ e => .err [] e
            | .nilPanic => .nilPanic
            | .divergent => .divergent

/-! ## Group roster data model (src/unnamed/part_003, src/people.go,
src/unnamed/part_002, src/unnamed/part_004) -/

/-- src/unnamed/part_004: `Role`. -/
structure Role where
  id : Option String
  name : Option String
  description : Option String
  deriving DecidableEq, Repr

/-- src/unnamed/part_004: `RolePagination`. -/
structure RolePagination where
  pagination : Option Pagination
  roles : List Role
  deriving DecidableEq, Repr

/-- src/people.go: `Person` (supervisors are again people). -/
structure Person where
  id : Option String
  targetName : Option String
  firstName : Option String
  lastName : Option String
  roles : List Role
  status : Option String
  webLogin : Option String
  site : Option ReferenceById
  timezone : Option String
  language : Option String
  supervisors : List Person
  phoneLogin : Option String
  licenseType : Option String
  externalKey : Option String
  externallyOwned : Option Bool
  lastLogin : Option String
  deriving Repr

/-- src/people.go: `PersonPagination`. -/
structure PersonPagination where
  pagination : Option Pagination
  people : List Person
  deriving Repr

/-- src/people.go: `PersonReference`. -/
structure PersonReference where
  id : Option String
  targetName : Option String
  firstName : Option String
  lastName : Option String
  deriving DecidableEq, Repr

/-- src/groups.go (devices part): `DeviceTimeframe`. -/
structure DeviceTimeframe where
  name : Option String
  startTime : Option String
  durationInMinutes : Option Int
  days : List (Option String)
  excludeHolidays : Option Bool
  deriving DecidableEq, Repr

/-- src/services.go: `ServicePagination`. -/
structure ServicePagination where
  pagination : Option Pagination
  services : List Service
  deriving DecidableEq, Repr

/-- src/unnamed/part_002: `RecipientPointer`. -/
structure RecipientPointer where
  id : Option String
  recipientType : Option String
  deriving DecidableEq, Repr

/-- src/unnamed/part_002: `ShiftEnd`. -/
structure ShiftEnd where
  endBy : Option String
  date : Option String
  repetitions : Option Int
  deriving DecidableEq, Repr

/-- src/unnamed/part_002: `ShiftRecurrence`. -/
structure ShiftRecurrence where
  frequency : Option String
  repeatEvery : Option Int
  onDays : List (Option String)
  onValue : Option String
  months : List (Option String)
  dateOfMonth : Option String
  dayOfWeekClassifier : Option String
  dayOfWeek : Option String
  endRule : Option ShiftEnd
  deriving DecidableEq, Repr

/-- src/unnamed/part_002: `ShiftMember`. -/
structure ShiftMember where
  recipient : Option RecipientPointer
  shift : Option ReferenceById
  position : Option Int
  delay : Option Int
  escalationType : Option String
  inRotation : Option Bool
  deriving DecidableEq, Repr

/-- src/unnamed/part_002: `Shift`. -/
structure Shift where
  id : Option String
  group : Option GroupReference
  name : Option String
  start : Option String
  endTime : Option String
  timezone : Option String
  recurrence : Option ShiftRecurrence
  members : List ShiftMember
  deriving DecidableEq, Repr

/-- src/unnamed/part_002: `ShiftPagination`. -/
structure ShiftPagination where
  pagination : Option Pagination
  shifts : List Shift
  deriving DecidableEq, Repr

/-- src/unnamed/part_003: `RecipientReference` — a group member, which can
be a person, device, or group; one sprawling struct of optional fields. -/
structure RecipientReference where
  id : Option String
  targetName : Option String
  recipientType : Option String
  site : Option ReferenceById
  supervisors : Option PersonPagination
  description : Option String
  observers : Option RolePagination
  allowDuplicates : Option Bool
  groupType : Option String
  observedByAll : Option Bool
  responseCount : Option Int
  responseCountThreshold : Option Int
  useDefaultDevices : Option Bool
  services : Option ServicePagination
  firstName : Option String
  language : Option String
  lastName : Option String
  licenseType : Option String
  phoneLogin : Option String
  phonePin : Option String
  properties : Option (List (String × String))
  roles : Option RolePagination
  timezone : Option String
  lastLogin : Option String
  webLogin : Option String
  defaultDevice : Option Bool
  delay : Option Int
  deviceType : Option String
  name : Option String
  owner : Option PersonReference
  priorityThreshold : Option String
  provider : Option ReferenceById
  sequence : Option String
  testStatus : Option String
  timeframes : Option (List DeviceTimeframe)
  externallyOwned : Option Bool
  deriving Repr

/-- src/unnamed/part_003: `GroupMembership` — group and member are held by
value. -/
structure GroupMembership where
  group : GroupReference
  member : RecipientReference
  shifts : ShiftPagination
  deriving Repr

/-- src/unnamed/part_003: `GroupMembershipPagination` — here `Pagination`
is embedded by value (not via a pointer), so it always exists and only its
`links` pointer can be nil. -/
structure GroupMembershipPagination where
  pagination : Pagination
  memberships : List GroupMembership
  deriving Repr

/-- src/unnamed/part_003: `GroupMember` — ID and type of a member. -/
structure GroupMember where
  id : Option String
  memberType : Option String
  deriving DecidableEq, Repr

/-- src/unnamed/part_003: `GroupRoster`. -/
structure GroupRoster where
  id : Option String
  group : Option GroupReference
  members : List GroupMember
  deriving DecidableEq, Repr

/-- The Go zero value `GroupRoster{}`: nil ID, nil Group, nil Members. -/
def GroupRoster.zero : GroupRoster :=
  { id := Option.none, group := Option.none, members := [] }

/-- src/unnamed/part_003 lines 126-174: `GetGroupRosterPaginationSet`.
After a successful decode the source returns `GroupRoster{}` with no error
whenever the page holds zero memberships — before ever looking at the
links.  Otherwise it projects every membership to a `GroupMember`, then
dereferences `memberPagination.Pagination.Links.Next` (a nil-pointer
dereference when `links` was absent), optionally recurses on the stripped
next URI, and builds the roster's ID and Group from the page's first
membership entry. -/
def GetGroupRosterPaginationSet (fetch : String → FetchOutcome GroupMembershipPagination) :
    Nat → String → GoOutcome GroupRoster
  | 0, _ => .divergent
  | fuel + 1, uri =>
    match fetch uri with
    | .requestErr e => .err GroupRoster.zero e
    | .decodeErr => .err GroupRoster.zero (newUnmarshalError "GetGroupRosterPaginationSet")
    | .page memberPagination =>
      match memberPagination.memberships with
      | [] => .ok GroupRoster.zero
      | first :: _ =>
        let memberList := memberPagination.memberships.map
          (fun m => { id := m.member.id, memberType := m.member.recipientType : GroupMember })
        match memberPagination.pagination.links with
        | Option.none => .nilPanic
        | some links =>
          match links.next with
          | Option.none =>
            .ok { id := first.group.id, group := some first.group, members := memberList }
          | some next =>
            match GetGroupRosterPaginationSet fetch fuel (stripNextUri next) with
            | .ok nextSet =>
              .ok { id := first.group.id
                    group := some first.group
                    members := memberList ++ nextSet.members }
            | .err _ e => .err GroupRoster.zero e
            | .nilPanic => .nilPanic
            | .divergent => .divergent

/-! ## src/unnamed/part_003: roster reconciliation -/

/-- src/unnamed/part_003 lines 275-282: `ContainsMember` — scans `target`
comparing `*m.ID == *member.ID`.  Both ID pointers are dereferenced at
each comparison, so a nil ID is a nil-pointer dereference; the outer
`Option` is `none` in that case.  An empty list yields `false` without any
dereference. -/
def ContainsMember (member : GroupMember) : List GroupMember → Option Bool
  | [] => some false
  | m :: ms =>
    match m.id, member.id with
    | some a, some b => if a = b then some true else ContainsMember member ms
    | _, _ => Option.none

/-- One mutation call issued by `PushGroupRoster`. -/
inductive RosterCall where
  | deleteMembership (memberId : String)
  | pushMembership (m : GroupMember)
  deriving DecidableEq, Repr

/-- Environment for one execution of `PushGroupRoster`: the outcomes of
the two `GetGroupRoster` fetches and of each mutation call. -/
structure RosterEnv where
  /-- The first `GetGroupRoster(groupId)`. -/
  firstFetch : Except GoError GroupRoster
  /-- `DeleteGroupMembership(groupId, memberId)`, per member ID. -/
  deleteResult : String → Except GoError Unit
  /-- `PushGroupMembership(groupId, member)`, per member. -/
  pushResult : GroupMember → Except GoError GroupMember
  /-- The final `GetGroupRoster(groupId)` after the mutations. -/
  secondFetch : Except GoError GroupRoster

/-- src/unnamed/part_003 lines 184-192: the removal loop of
`PushGroupRoster` — for each current member not contained (by ID) in the
desired list, issue one `DeleteGroupMembership` call with the
dereferenced member ID; a failing call aborts the whole function.  The
result lists the delete calls issued, in roster order; the outer `Option`
is `none` on a nil-ID dereference. -/
def runDeletes (delete : String → Except GoError Unit) (params : List GroupMember) :
    List GroupMember → Option (Except GoError (List RosterCall))
  | [] => some (.ok [])
  | member :: rest =>
    match ContainsMember member params with
    | Option.none => Option.none
    | some true => runDeletes delete params rest
    | some false =>
      match member.id with
      | Option.none => Option.none
      | some memberId =>
        match delete memberId with
        | .error e => some (.error e)
        | .ok _ =>
          match runDeletes delete params rest with
          | Option.none => Option.none
          | some (.error e) => some (.error e)
          | some (.ok calls) => some (.ok (.deleteMembership memberId :: calls))

/-- src/unnamed/part_003 lines 193-200: the addition loop of
`PushGroupRoster` — for each desired member not contained (by ID) in the
current roster, issue one `PushGroupMembership` call; a failing call
aborts the whole function. -/
def runPushes (push : GroupMember → Except GoError GroupMember) (currentMembers : List GroupMember) :
    List GroupMember → Option (Except GoError (List RosterCall))
  | [] => some (.ok [])
  | member :: rest =>
    match ContainsMember member currentMembers with
    | Option.none => Option.none
    | some true => runPushes push currentMembers rest
    | some false =>
      match push member with
      | .error e => some (.error e)
      | .ok _ =>
        match runPushes push currentMembers rest with
        | Option.none => Option.none
        | some (.error e) => some (.error e)
        | some (.ok calls) => some (.ok (.pushMembership member :: calls))

/-- src/unnamed/part_003 lines 179-207: `PushGroupRoster` — fetch the
current roster, run the removal loop over its members, then the addition
loop over the desired members, then re-fetch the roster and return it.
On success the result pairs the re-fetched roster with the mutation call
trace, removal calls first (the loops run strictly in sequence); any
error propagates; the outer `Option` is `none` on a nil-ID dereference. -/
def PushGroupRoster (env : RosterEnv) (params : List GroupMember) :
    Option (Except GoError (GroupRoster × List RosterCall)) :=
  match env.firstFetch with
  | .error e => some (.error e)
  | .ok currentRoster =>
    match runDeletes env.deleteResult params currentRoster.members with
    | Option.none => Option.none
    | some (.error e) => some (.error e)
    | some (.ok deleteCalls) =>
      match runPushes env.pushResult currentRoster.members params with
      | Option.none => Option.none
      | some (.error e) => some (.error e)
      | some (.ok pushCalls) =>
        match env.secondFetch with
        | .error e => some (.error e)
        | .ok newRoster => some (.ok (newRoster, deleteCalls ++ pushCalls))

/-! ## Specification-side reference definitions

These follow the words of the claims and are compared with the embedded
functions in the theorems below. -/

/-- Whether some member of `l` has the given (present) ID. -/
def hasMemberId (i : Option String) (l : List GroupMember) : Bool :=
  l.any (fun x => x.id == i)

/-- The delete calls the claim predicts: one per current member whose ID
is absent from the desired list, in current-roster order. -/
def deleteCallsSpec (current desired : List GroupMember) : List RosterCall :=
  (current.filter (fun m => !hasMemberId m.id desired)).map
    (fun m => .deleteMembership (m.id.getD ""))

/-- The create calls the claim predicts: one per desired member whose ID
is absent from the current roster, in desired-list order. -/
def pushCallsSpec (current desired : List GroupMember) : List RosterCall :=
  (desired.filter (fun m => !hasMemberId m.id current)).map
    (fun m => .pushMembership m)

/-- The page chain reachable from a URI under a fetch environment: every
page decodes successfully with its pagination and links objects present;
every page but the last carries a next link whose stripped form is the
URI of the following page; the last page has no next link. -/
inductive Chain (fetch : String → FetchOutcome GroupPagination) :
    String → List GroupPagination → Prop where
  | last (uri : String) (gp : GroupPagination) (pag : Pagination) (links : PaginationLinks) :
      fetch uri = .page gp → gp.pagination = some pag → pag.links = some links →
      links.next = Option.none → Chain fetch uri [gp]
  | step (uri : String) (gp : GroupPagination) (pag : Pagination) (links : PaginationLinks)
      (next : String) (rest : List GroupPagination) :
      fetch uri = .page gp → gp.pagination = some pag → pag.links = some links →
      links.next = some next → Chain fetch (stripNextUri next) rest →
      Chain fetch uri (gp :: rest)

/-! ## Theorems -/

/-- Claim C2: for every HTTP response, `Request` classifies it in priority
order and returns: status 204 → (nil, the no-content sentinel error);
status 401 → (nil, the invalid-credentials sentinel error); status in
200/201 → (the full response body bytes, nil); any other status → (nil,
the body decoded as a structured `XMattersError`, or, if that decode
fails, a wrapped decode error carrying the raw body). -/
theorem c2_request_status_classification
    (body : Option GoValue) (env : RequestEnv) (resp : HttpResponse) (rb : Option Bytes)
    (hbody : buildReqBody body = .ok rb)
    (hreq : env.newRequestFails = false)
    (hdo : env.doOutcome = .ok resp) :
    (resp.statusCode = 204 →
      (Request body env).1 = ⟨Option.none, some (.xm ErrNoContent)⟩) ∧
    (resp.statusCode = 401 →
      (Request body env).1 = ⟨Option.none, some (.xm ErrInavlidCredentials)⟩) ∧
    (∀ b, resp.bodyRead = .ok b → (resp.statusCode = 200 ∨ resp.statusCode = 201) →
      (Request body env).1 = ⟨some b, Option.none⟩) ∧
    (∀ b, resp.bodyRead = .ok b →
      resp.statusCode ≠ 204 → resp.statusCode ≠ 401 →
      resp.statusCode ≠ 200 → resp.statusCode ≠ 201 →
      (Request body env).1 =
        ⟨Option.none, some (newXMattersError env.decodeXMattersError b)⟩ ∧
      (∀ xmerr, env.decodeXMattersError b = some xmerr →
        newXMattersError env.decodeXMattersError b = .xm xmerr) ∧
      (env.decodeXMattersError b = Option.none →
        newXMattersError env.decodeXMattersError b = .errBodyDecodeFailed b)) := by
  obtain ⟨sc, br⟩ := resp
  refine ⟨?_, ?_, ?_, ?_⟩
  · intro h
    simp only at h
    simp [Request, hbody, hreq, hdo, h]
  · intro h
    simp only at h
    simp [Request, hbody, hreq, hdo, h]
  · intro b hb hsc
    simp only at hb hsc
    rcases hsc with h | h <;> simp [Request, hbody, hreq, hdo, h, hb]
  · intro b hb h204 h401 h200 h201
    simp only at hb h204 h401 h200 h201
    refine ⟨?_, ?_, ?_⟩
    · simp [Request, hbody, hreq, hdo, hb, h204, h401, h200, h201]
    · intro xmerr hdec
      simp [newXMattersError, hdec]
    · intro hdec
      simp [newXMattersError, hdec]

/-- Concrete instantiation of the C2 classification theorem: a 204
response on a body-less request yields the no-content sentinel. -/
theorem c2_request_status_classification_witness :
    (Request Option.none
      { newRequestFails := false
        doOutcome := .ok { statusCode := 204, bodyRead := .ok [] }
        decodeXMattersError := fun _ => Option.none }).1 =
      ⟨Option.none, some (.xm ErrNoContent)⟩ :=
  (c2_request_status_classification Option.none
    { newRequestFails := false
      doOutcome := .ok { statusCode := 204, bodyRead := .ok [] }
      decodeXMattersError := fun _ => Option.none }
    { statusCode := 204, bodyRead := .ok [] } Option.none rfl rfl rfl).1 rfl

/-- Claim C8: for every non-nil body, exactly one serialization form is
chosen by type inspection, raw forms taking precedence over JSON
encoding: a streaming reader is used as-is; otherwise a byte slice is
used as-is; otherwise the value is JSON-encoded, and a JSON encoding
failure makes `Request` return an error without issuing any HTTP call; a
nil body sends no request body. -/
theorem c8_body_serialization :
    (buildReqBody Option.none = .ok Option.none) ∧
    (∀ v r, v.asReader = some r → buildReqBody (some v) = .ok (some r)) ∧
    (∀ v b, v.asReader = Option.none → v.asBytes = some b →
      buildReqBody (some v) = .ok (some b)) ∧
    (∀ v j, v.asReader = Option.none → v.asBytes = Option.none →
      v.marshalJSON = .ok j → buildReqBody (some v) = .ok (some j)) ∧
    (∀ v env u, v.asReader = Option.none → v.asBytes = Option.none →
      v.marshalJSON = .error u →
      Request (some v) env = (⟨Option.none, some .marshalBody⟩, [])) := by
  refine ⟨rfl, ?_, ?_, ?_, ?_⟩
  · intro v r h
    simp [buildReqBody, h]
  · intro v b h1 h2
    simp [buildReqBody, h1, h2]
  · intro v j h1 h2 h3
    simp [buildReqBody, h1, h2, h3]
  · intro v env u h1 h2 h3
    simp [Request, buildReqBody, h1, h2, h3]

/-- Concrete instantiation of the C8 serialization theorem: a body whose
JSON marshalling fails makes `Request` return the marshal error with an
empty effect trace (no HTTP call). -/
theorem c8_body_serialization_witness :
    Request (some { asReader := Option.none, asBytes := Option.none
                    marshalJSON := .error () })
      { newRequestFails := false
        doOutcome := .fail
        decodeXMattersError := fun _ => Option.none } =
      (⟨Option.none, some .marshalBody⟩, []) :=
  c8_body_serialization.2.2.2.2
    { asReader := Option.none, asBytes := Option.none, marshalJSON := .error () }
    { newRequestFails := false
      doOutcome := .fail
      decodeXMattersError := fun _ => Option.none }
    () rfl rfl rfl

/-- Claim C3 (refuting theorem): no execution of `Request` ever acquires
a rate-limiter permit — the effect trace contains zero
`rateLimiterWait` effects for every body and environment — and a client
built by `newClient` without options has no rate limiter at all (the
field stays nil; the claimed 4-requests-per-second default is never
installed).  Configuration via `WithRateLimit` does store a limiter with
burst 1, but no code ever reads it. -/
theorem c3_rate_limiter_never_acquired :
    (∀ body env, ((Request body env).2).count Effect.rateLimiterWait = 0) ∧
    (∀ hostname, (newClient hostname []).rateLimiter = Option.none) ∧
    (∀ hostname rps,
      (newClient hostname [WithRateLimit rps]).rateLimiter =
        some { rps := rps, burst := 1 }) := by
  refine ⟨?_, ?_, ?_⟩
  · intro body env
    have htrace : (Request body env).2 = [] ∨ (Request body env).2 = [Effect.httpDo] := by
      unfold Request
      split
      · simp
      · split
        · simp
        · split
          · simp
          · split
            · simp
            · split
              · simp
              · split
                · simp
                · split <;> simp
    rcases htrace with h | h <;> simp [h]
  · intro hostname
    simp [newClient, parseOptions]
  · intro hostname rps
    simp [newClient, parseOptions, WithRateLimit]

/-- Claim C4 (refuting theorem): `WithRetryPolicy` stores the policy on
the client, but `newClient` never installs it on the underlying retrying
HTTP client, whose retry ceiling stays at the library default of 4
regardless of the configured `maxRetries`; consequently, with
`WithRetryPolicy(10, 1, 2)` a transport failing MaxRetries − 1 = 9 times
before succeeding exhausts the effective 4-retry budget and yields no
body, where the claim predicts success. -/
theorem c4_retry_policy_never_installed :
    (∀ host m a b,
      (newClient host [WithRetryPolicy m a b]).httpClientRetryMax =
        retryablehttpDefaultRetryMax ∧
      (newClient host [WithRetryPolicy m a b]).retryPolicy =
        { maxRetries := m
          minRetryDelayNs := a * nsPerSecond
          maxRetryDelayNs := b * nsPerSecond }) ∧
    retryTransport retryablehttpDefaultRetryMax
      (List.replicate 9 Option.none ++ [some [1]]) = Option.none := by
  refine ⟨?_, by decide⟩
  intro host m a b
  exact ⟨rfl, rfl⟩

/-- Claim C1: for every multi-page result set (a chain of page envelopes
linked by next links), the pagination walk returns the concatenation of
the pages' element lists in page order, with in-page order preserved —
the result equals the reference sequence obtained by joining all pages'
element lists. -/
theorem c1_pagination_concatenates_pages
    (fetch : String → FetchOutcome GroupPagination) (uri : String)
    (pages : List GroupPagination) (h : Chain fetch uri pages) :
    ∀ fuel, pages.length ≤ fuel →
      GetGroupPaginationSet fetch fuel uri =
        .ok (pages.map GroupPagination.groups).flatten := by
  induction h with
  | last u gp pag links hfetch hpag hlinks hnext =>
    intro fuel hfuel
    cases fuel with
    | zero => simp at hfuel
    | succ n =>
      simp [GetGroupPaginationSet, hfetch, hpag, hlinks, hnext]
  | step u gp pag links next rest hfetch hpag hlinks hnext hrest ih =>
    intro fuel hfuel
    cases fuel with
    | zero => simp at hfuel
    | succ n =>
      have hn : rest.length ≤ n := by
        simpa [Nat.succ_le_succ_iff] using hfuel
      simp [GetGroupPaginationSet, hfetch, hpag, hlinks, hnext, ih n hn]

/-- A group whose only populated field is its ID (used by concrete
instantiations below). -/
def simpleGroup (i : String) : Group :=
  { id := some i, targetName := Option.none, status := Option.none
    description := Option.none, groupType := Option.none
    allowDuplicates := Option.none, timezone := Option.none
    site := Option.none, observedByAll := Option.none, observers := []
    useDefaultDevices := Option.none, supervisors := [], services := []
    externalKey := Option.none, externallyOwned := Option.none }

/-- Links of a page pointing at a second page, anchored at the API root. -/
def c1Links1 : PaginationLinks :=
  { next := some "/api/xm/1/groups?offset=2", previous := Option.none
    selfLink := some "/api/xm/1/groups" }

/-- Links of a final page. -/
def c1Links2 : PaginationLinks :=
  { next := Option.none, previous := Option.none, selfLink := Option.none }

/-- Pagination envelope of the first concrete page. -/
def c1Pag1 : Pagination := { count := some 2, total := some 3, links := some c1Links1 }

/-- Pagination envelope of the second concrete page. -/
def c1Pag2 : Pagination := { count := some 1, total := some 3, links := some c1Links2 }

/-- First concrete page: two groups and a next link. -/
def c1Page1 : GroupPagination :=
  { pagination := some c1Pag1, groups := [simpleGroup "g1", simpleGroup "g2"] }

/-- Second concrete page: one group and no next link. -/
def c1Page2 : GroupPagination :=
  { pagination := some c1Pag2, groups := [simpleGroup "g3"] }

/-- A concrete two-page fetch environment. -/
def c1Fetch : String → FetchOutcome GroupPagination := fun u =>
  if u = "/groups" then .page c1Page1
  else if u = "/groups?offset=2" then .page c1Page2
  else .requestErr .httpRequestFailed

/-- Concrete two-page instantiation of the C1 concatenation theorem. -/
theorem c1_pagination_concatenates_pages_witness :
    GetGroupPaginationSet c1Fetch 2 "/groups" =
      .ok [simpleGroup "g1", simpleGroup "g2", simpleGroup "g3"] := by
  have h := c1_pagination_concatenates_pages c1Fetch "/groups" [c1Page1, c1Page2]
    (Chain.step "/groups" c1Page1 c1Pag1 c1Links1 "/api/xm/1/groups?offset=2" [c1Page2]
      (by decide) rfl rfl rfl
      (Chain.last (stripNextUri "/api/xm/1/groups?offset=2") c1Page2 c1Pag2 c1Links2
        (by decide) rfl rfl rfl))
    2 (by decide)
  simpa [c1Page1, c1Page2] using h

/-- Claim C6: whenever a page fetch fails (transport error or error
status) or a page envelope fails to decode, the pagination walk returns
the empty collection together with the error — every error outcome of
either walker carries the empty value, and an error in the recursive tail
discards the elements already accumulated from earlier pages. -/
theorem c6_no_partial_results :
    (∀ fetch fuel uri val e,
      GetGroupPaginationSet fetch fuel uri = .err val e → val = []) ∧
    (∀ fetch fuel uri roster e,
      GetGroupRosterPaginationSet fetch fuel uri = .err roster e →
        roster = GroupRoster.zero) ∧
    (∀ fetch fuel uri gp pag links next v e,
      fetch uri = .page gp → gp.pagination = some pag → pag.links = some links →
      links.next = some next →
      GetGroupPaginationSet fetch fuel (stripNextUri next) = .err v e →
      GetGroupPaginationSet fetch (fuel + 1) uri = .err [] e) := by
  refine ⟨?_, ?_, ?_⟩
  · intro fetch fuel uri val e h
    cases fuel with
    | zero => simp [GetGroupPaginationSet] at h
    | succ n =>
      unfold GetGroupPaginationSet at h
      repeat' split at h
      all_goals simp_all
  · intro fetch fuel uri roster e h
    cases fuel with
    | zero => simp [GetGroupRosterPaginationSet] at h
    | succ n =>
      unfold GetGroupRosterPaginationSet at h
      repeat' split at h
      all_goals simp_all
  · intro fetch fuel uri gp pag links next v e hfetch hpag hlinks hnext hrec
    simp [GetGroupPaginationSet, hfetch, hpag, hlinks, hnext, hrec]

/-- Links pointing at a page whose fetch fails. -/
def c6Links : PaginationLinks :=
  { next := some "/api/xm/1/groups?offset=1", previous := Option.none
    selfLink := Option.none }

/-- Pagination envelope for the C6 instantiation. -/
def c6Pag : Pagination := { count := some 1, total := some 2, links := some c6Links }

/-- First page for the C6 instantiation: one group accumulated before the
failing second fetch. -/
def c6Page : GroupPagination :=
  { pagination := some c6Pag, groups := [simpleGroup "g1"] }

/-- A fetch environment whose second page fails. -/
def c6Fetch : String → FetchOutcome GroupPagination := fun u =>
  if u = "/groups" then .page c6Page
  else .requestErr .httpRequestFailed

/-- Concrete instantiation of the C6 discard theorem: a first page whose
next link points at a failing fetch makes the whole walk return the empty
list with that error. -/
theorem c6_no_partial_results_witness :
    GetGroupPaginationSet c6Fetch 2 "/groups" = .err [] .httpRequestFailed := by
  exact c6_no_partial_results.2.2 c6Fetch 1 "/groups" c6Page c6Pag c6Links
    "/api/xm/1/groups?offset=1" [] .httpRequestFailed
    (by decide) rfl rfl rfl (by decide)

/-- Whether an outcome is a nil-pointer crash. -/
def GoOutcome.isNilPanic {α : Type} : GoOutcome α → Bool
  | .nilPanic => true
  | _ => false

/-- A roster page that decodes successfully with zero memberships and no
links object. -/
def c9EmptyNoLinksFetch : String → FetchOutcome GroupMembershipPagination := fun _ =>
  .page { pagination := { count := Option.none, total := Option.none, links := Option.none }
          memberships := [] }

/-- Claim C9 (counterexample): a roster page that decodes successfully,
omits the links object, and carries zero memberships does NOT make the
walker dereference a nil pointer — the zero-membership early return fires
first and the walk ends normally with an empty roster. -/
theorem c9_counterexample :
    GetGroupRosterPaginationSet c9EmptyNoLinksFetch 1 "/groups/g/members" =
      .ok GroupRoster.zero ∧
    (GetGroupRosterPaginationSet c9EmptyNoLinksFetch 1 "/groups/g/members").isNilPanic =
      false := by
  constructor <;> rfl

/-- Claim C9 (amended): the group walker dereferences a nil pointer on
every successfully decoded page whose pagination envelope or links object
is missing; the roster walker does so exactly when such a page carries at
least one membership — a links-less page with zero memberships instead
returns the empty roster with no error. -/
theorem c9_amended_nil_links_panics :
    (∀ fetch fuel uri gp, fetch uri = .page gp → gp.pagination = Option.none →
      GetGroupPaginationSet fetch (fuel + 1) uri = .nilPanic) ∧
    (∀ fetch fuel uri gp pag, fetch uri = .page gp → gp.pagination = some pag →
      pag.links = Option.none →
      GetGroupPaginationSet fetch (fuel + 1) uri = .nilPanic) ∧
    (∀ fetch fuel uri mp first rest, fetch uri = .page mp →
      mp.memberships = first :: rest → mp.pagination.links = Option.none →
      GetGroupRosterPaginationSet fetch (fuel + 1) uri = .nilPanic) ∧
    (∀ fetch fuel uri mp, fetch uri = .page mp → mp.memberships = [] →
      GetGroupRosterPaginationSet fetch (fuel + 1) uri = .ok GroupRoster.zero) := by
  refine ⟨?_, ?_, ?_, ?_⟩
  · intro fetch fuel uri gp hfetch hpag
    simp [GetGroupPaginationSet, hfetch, hpag]
  · intro fetch fuel uri gp pag hfetch hpag hlinks
    simp [GetGroupPaginationSet, hfetch, hpag, hlinks]
  · intro fetch fuel uri mp first rest hfetch hmem hlinks
    simp [GetGroupRosterPaginationSet, hfetch, hmem, hlinks]
  · intro fetch fuel uri mp hfetch hmem
    simp [GetGroupRosterPaginationSet, hfetch, hmem]

/-- A group page that decodes successfully but has no pagination
envelope at all. -/
def c9GroupNoPagFetch : String → FetchOutcome GroupPagination := fun _ =>
  .page { pagination := Option.none, groups := [simpleGroup "g1"] }

/-- A recipient reference whose only populated fields are ID and
recipient type. -/
def simpleRecipient (i t : String) : RecipientReference :=
  { id := some i, targetName := Option.none
    recipientType := some t, site := Option.none
    supervisors := Option.none, description := Option.none
    observers := Option.none, allowDuplicates := Option.none
    groupType := Option.none, observedByAll := Option.none
    responseCount := Option.none, responseCountThreshold := Option.none
    useDefaultDevices := Option.none, services := Option.none
    firstName := Option.none, language := Option.none
    lastName := Option.none, licenseType := Option.none
    phoneLogin := Option.none, phonePin := Option.none
    properties := Option.none, roles := Option.none
    timezone := Option.none, lastLogin := Option.none
    webLogin := Option.none, defaultDevice := Option.none
    delay := Option.none, deviceType := Option.none
    name := Option.none, owner := Option.none
    priorityThreshold := Option.none, provider := Option.none
    sequence := Option.none, testStatus := Option.none
    timeframes := Option.none, externallyOwned := Option.none }

/-- A membership of member `i` in group `g`. -/
def simpleMembership (g i : String) : GroupMembership :=
  { group := { id := some g, targetName := Option.none
               recipientType := Option.none, groupType := Option.none }
    member := simpleRecipient i "PERSON"
    shifts := { pagination := Option.none, shifts := [] } }

/-- A roster page with one membership and no links object. -/
def c9RosterPage : GroupMembershipPagination :=
  { pagination := { count := some 1, total := some 1, links := Option.none }
    memberships := [simpleMembership "grp" "m1"] }

/-- A fetch environment serving the links-less one-membership page. -/
def c9RosterNoLinksFetch : String → FetchOutcome GroupMembershipPagination := fun _ =>
  .page c9RosterPage

/-- Concrete instantiation of the amended C9 theorem: a group page with
no pagination envelope crashes the group walker, and a links-less roster
page with one membership crashes the roster walker. -/
theorem c9_amended_nil_links_panics_witness :
    GetGroupPaginationSet c9GroupNoPagFetch 1 "/groups" = .nilPanic ∧
    GetGroupRosterPaginationSet c9RosterNoLinksFetch 1 "/groups/g/members" = .nilPanic := by
  constructor
  · exact c9_amended_nil_links_panics.1 c9GroupNoPagFetch 0 "/groups"
      { pagination := Option.none, groups := [simpleGroup "g1"] } rfl rfl
  · exact c9_amended_nil_links_panics.2.2.1 c9RosterNoLinksFetch 0 "/groups/g/members"
      c9RosterPage (simpleMembership "grp" "m1") [] rfl rfl rfl

/-- Claim C10: a fetched roster page that decodes to zero memberships
makes the roster walk immediately return the zero-valued `GroupRoster`
(nil ID, Group, and Members) with no error, without following any next
link; and for a non-empty page the returned roster's ID and Group fields
are copied from the first membership entry of that page. -/
theorem c10_roster_empty_page_and_group_fields :
    (∀ fetch fuel uri mp, fetch uri = .page mp → mp.memberships = [] →
      GetGroupRosterPaginationSet fetch (fuel + 1) uri =
        .ok { id := Option.none, group := Option.none, members := [] }) ∧
    (∀ fetch fuel uri mp first rest roster, fetch uri = .page mp →
      mp.memberships = first :: rest →
      GetGroupRosterPaginationSet fetch (fuel + 1) uri = .ok roster →
      roster.id = first.group.id ∧ roster.group = some first.group) := by
  constructor
  · intro fetch fuel uri mp hfetch hmem
    simp [GetGroupRosterPaginationSet, hfetch, hmem, GroupRoster.zero]
  · intro fetch fuel uri mp first rest roster hfetch hmem h
    unfold GetGroupRosterPaginationSet at h
    rw [hfetch] at h
    simp only at h
    rw [hmem] at h
    simp only at h
    rcases hlinks : mp.pagination.links with _ | links <;> rw [hlinks] at h <;>
      simp only at h
    · simp at h
    · rcases hnext : links.next with _ | next <;> rw [hnext] at h <;> simp only at h
      · simp only [GoOutcome.ok.injEq] at h
        exact ⟨by rw [← h], by rw [← h]⟩
      · rcases hrec : GetGroupRosterPaginationSet fetch fuel (stripNextUri next)
            with nextSet | ⟨v, e⟩ | _ | _ <;> rw [hrec] at h <;> simp only at h
        · simp only [GoOutcome.ok.injEq] at h
          exact ⟨by rw [← h], by rw [← h]⟩
        all_goals exact absurd h (by simp)

/-- First roster page of the C10 instantiation: one membership and a
next link. -/
def c10FirstPage : GroupMembershipPagination :=
  { pagination := { count := some 1, total := some 1
                    links := some { next := some "/api/xm/1/groups/g/members?offset=1"
                                    previous := Option.none
                                    selfLink := Option.none } }
    memberships := [simpleMembership "grp" "m1"] }

/-- Second roster page of the C10 instantiation: empty, no links. -/
def c10EmptyPage : GroupMembershipPagination :=
  { pagination := { count := some 0, total := some 1, links := Option.none }
    memberships := [] }

/-- A two-page roster fetch environment: the first page has one
membership and a next link, the second page is empty. -/
def c10Fetch : String → FetchOutcome GroupMembershipPagination := fun u =>
  if u = "/groups/g/members" then .page c10FirstPage else .page c10EmptyPage

/-- Concrete instantiation of the C10 theorem: the empty second page ends
the walk with the zero roster, and on the first page the roster fields
come from the first membership. -/
theorem c10_roster_empty_page_and_group_fields_witness :
    GetGroupRosterPaginationSet c10Fetch 1 "/groups/g/members?offset=1" =
      .ok { id := Option.none, group := Option.none, members := [] } := by
  exact c10_roster_empty_page_and_group_fields.1 c10Fetch 0 "/groups/g/members?offset=1"
    c10EmptyPage rfl rfl

/-- A scan over input containing no occurrence of the pattern leaves the
input unchanged. -/
theorem replaceScan_eq_self (pat : List Char) :
    ∀ (s : List Char) (n : Nat), s.length ≤ n → ¬ (pat <:+: s) →
      replaceScan pat n s = s := by
  intro s
  induction s with
  | nil =>
    intro n _ _
    cases n <;> simp [replaceScan]
  | cons c cs ih =>
    intro n hn hinf
    cases n with
    | zero => simp at hn
    | succ m =>
      have hcond : ¬ (pat ≠ [] ∧ pat.isPrefixOf (c :: cs) = true) := by
        rintro ⟨_, hpre⟩
        exact hinf (( List.isPrefixOf_iff_prefix.mp hpre).isInfix)
      simp only [replaceScan]
      rw [if_neg hcond]
      have hlen : cs.length ≤ m := Nat.le_of_succ_le_succ (by simpa using hn)
      rw [ih m hlen (fun hi => hinf (List.infix_cons hi))]

/-- A scan over `pat ++ rest`, where `rest` holds no further occurrence
of the (non-empty) pattern, deletes exactly the leading pattern. -/
theorem replaceScan_strips_leading_pattern (pat rest : List Char) (hne : pat ≠ [])
    (n : Nat) (hn : (pat ++ rest).length ≤ n) (hinf : ¬ (pat <:+: rest)) :
    replaceScan pat n (pat ++ rest) = rest := by
  cases pat with
  | nil => exact absurd rfl hne
  | cons p ps =>
    cases n with
    | zero => simp at hn
    | succ m =>
      have hcond : (p :: ps) ≠ [] ∧ (p :: ps).isPrefixOf (p :: (ps ++ rest)) = true := by
        refine ⟨by simp, ?_⟩
        rw [← List.cons_append]
        exact List.isPrefixOf_iff_prefix.mpr (List.prefix_append _ _)
      have hdrop : List.drop (p :: ps).length (p :: (ps ++ rest)) = rest := by
        rw [← List.cons_append]
        exact List.drop_left (p :: ps) rest
      simp only [List.cons_append, replaceScan, List.append_eq]
      rw [if_pos hcond, hdrop]
      refine replaceScan_eq_self (p :: ps) rest m ?_ hinf
      simp [List.length_append] at hn
      omega

/-- Claim C5 (counterexample): the next-URI derivation removes every
occurrence of "/api/xm/1" (not only a leading prefix: an occurrence
embedded in the query string is deleted too), and it is not idempotent —
deleting an occurrence can expose a new one, which a second application
removes. -/
theorem c5_counterexample :
    stripNextUri "/api/xm/1/groups?x=/api/xm/1/y" = "/groups?x=/y" ∧
    ((stripNextUri "/api/xm/1/groups?x=/api/xm/1/y" == "/groups?x=/api/xm/1/y") = false) ∧
    stripNextUri "/api/api/xm/1/xm/1/groups" = "/api/xm/1/groups" ∧
    stripNextUri (stripNextUri "/api/api/xm/1/xm/1/groups") = "/groups" ∧
    ((stripNextUri (stripNextUri "/api/api/xm/1/xm/1/groups") ==
        stripNextUri "/api/api/xm/1/xm/1/groups") = false) := by
  refine ⟨by decide, by decide, by decide, by decide, by decide⟩

/-- Claim C5 (amended): the follow-up URI is derived by deleting every
left-to-right non-overlapping occurrence of "/api/xm/1" from the next
link; for a next link consisting of the API-root prefix followed by a
remainder containing no further occurrence of the prefix, this equals
stripping the prefix, and on such a stripped remainder the derivation is
the identity (so feeding the walker the stripped path re-derives the same
URI). -/
theorem c5_amended_strip_of_prefixed_link (rest : String)
    (h : ¬ (defaultBasePath.toList <:+: rest.toList)) :
    stripNextUri (defaultBasePath ++ rest) = rest ∧ stripNextUri rest = rest := by
  have hmk : String.mk rest.toList = rest := rfl
  constructor
  · show String.mk (replaceScan defaultBasePath.toList
      (defaultBasePath ++ rest).toList.length (defaultBasePath ++ rest).toList) = rest
    have happ : (defaultBasePath ++ rest).toList =
        defaultBasePath.toList ++ rest.toList := by
      simp [String.toList]
    rw [happ, replaceScan_strips_leading_pattern defaultBasePath.toList rest.toList
      (by decide) _ (Nat.le_refl _) h, hmk]
  · show String.mk (replaceScan defaultBasePath.toList
      rest.toList.length rest.toList) = rest
    rw [replaceScan_eq_self defaultBasePath.toList rest.toList
      rest.toList.length (Nat.le_refl _) h, hmk]

/-- Concrete instantiation of the amended C5 theorem on the link
"/api/xm/1/groups". -/
theorem c5_amended_strip_of_prefixed_link_witness :
    stripNextUri "/api/xm/1/groups" = "/groups" ∧ stripNextUri "/groups" = "/groups" := by
  have h := c5_amended_strip_of_prefixed_link "/groups" (by decide)
  simpa using h

/-- When the probed member and every member of the target list carry an
ID, `ContainsMember` computes exactly "some member of the list has the
same ID". -/
theorem containsMember_eq_hasId (member : GroupMember) (i : String)
    (hm : member.id = some i) :
    ∀ l : List GroupMember, (∀ x ∈ l, x.id.isSome) →
      ContainsMember member l = some (hasMemberId member.id l) := by
  intro l
  induction l with
  | nil =>
    intro _
    simp [ContainsMember, hasMemberId]
  | cons x xs ih =>
    intro hall
    obtain ⟨a, ha⟩ := Option.isSome_iff_exists.mp (hall x (by simp))
    have hxs : ∀ y ∈ xs, y.id.isSome := fun y hy => hall y (by simp [hy])
    by_cases hai : a = i
    · simp [ContainsMember, ha, hm, hai, hasMemberId]
    · simp [ContainsMember, ha, hm, hai, hasMemberId, ih hxs]

/-- When every delete call succeeds and every ID is present, the removal
loop of `PushGroupRoster` issues exactly one delete per current member
whose ID is absent from the desired list, in current-roster order. -/
theorem runDeletes_eq_spec (delete : String → Except GoError Unit)
    (hdel : ∀ i, delete i = .ok ()) (params : List GroupMember)
    (hparams : ∀ x ∈ params, x.id.isSome) :
    ∀ current : List GroupMember, (∀ x ∈ current, x.id.isSome) →
      runDeletes delete params current = some (.ok (deleteCallsSpec current params)) := by
  intro current
  induction current with
  | nil =>
    intro _
    simp [runDeletes, deleteCallsSpec]
  | cons m ms ih =>
    intro hall
    obtain ⟨i, hi⟩ := Option.isSome_iff_exists.mp (hall m (by simp))
    have hms : ∀ x ∈ ms, x.id.isSome := fun y hy => hall y (by simp [hy])
    have hcm := containsMember_eq_hasId m i hi params hparams
    by_cases hin : hasMemberId m.id params
    · have hin' : hasMemberId (some i) params = true := by rw [← hi]; exact hin
      simp [runDeletes, hcm, hin, hin', hi, deleteCallsSpec, ih hms, List.filter_cons]
    · simp only [Bool.not_eq_true] at hin
      have hin' : hasMemberId (some i) params = false := by rw [← hi]; exact hin
      simp [runDeletes, hcm, hin, hin', hi, hdel i, deleteCallsSpec, ih hms,
        List.filter_cons]

/-- When every create call succeeds and every ID is present, the addition
loop of `PushGroupRoster` issues exactly one create per desired member
whose ID is absent from the current roster, in desired-list order. -/
theorem runPushes_eq_spec (push : GroupMember → Except GoError GroupMember)
    (hpush : ∀ m, ∃ r, push m = .ok r) (currentMembers : List GroupMember)
    (hcurrent : ∀ x ∈ currentMembers, x.id.isSome) :
    ∀ desired : List GroupMember, (∀ x ∈ desired, x.id.isSome) →
      runPushes push currentMembers desired =
        some (.ok (pushCallsSpec currentMembers desired)) := by
  intro desired
  induction desired with
  | nil =>
    intro _
    simp [runPushes, pushCallsSpec]
  | cons m ms ih =>
    intro hall
    obtain ⟨i, hi⟩ := Option.isSome_iff_exists.mp (hall m (by simp))
    obtain ⟨r, hr⟩ := hpush m
    have hms : ∀ x ∈ ms, x.id.isSome := fun y hy => hall y (by simp [hy])
    have hcm := containsMember_eq_hasId m i hi currentMembers hcurrent
    by_cases hin : hasMemberId m.id currentMembers
    · have hin' : hasMemberId (some i) currentMembers = true := by rw [← hi]; exact hin
      simp [runPushes, hcm, hin, hin', hi, pushCallsSpec, ih hms, List.filter_cons]
    · simp only [Bool.not_eq_true] at hin
      have hin' : hasMemberId (some i) currentMembers = false := by rw [← hi]; exact hin
      simp [runPushes, hcm, hin, hin', hi, hr, pushCallsSpec, ih hms, List.filter_cons]

/-- Claim C7: in a reconciliation run whose calls all succeed and whose
members all carry IDs, `PushGroupRoster` issues exactly one delete per
current member whose ID is absent from the desired list and exactly one
create per desired member whose ID is absent from the current roster
(membership equality by ID alone), with all removals before any
additions, and returns the freshly re-fetched roster, not a locally
computed projection. -/
theorem c7_roster_reconciliation (env : RosterEnv) (params : List GroupMember)
    (current final : GroupRoster)
    (h1 : env.firstFetch = .ok current)
    (hcur : ∀ x ∈ current.members, x.id.isSome)
    (hparams : ∀ x ∈ params, x.id.isSome)
    (hdel : ∀ i, env.deleteResult i = .ok ())
    (hpush : ∀ m, ∃ r, env.pushResult m = .ok r)
    (h2 : env.secondFetch = .ok final) :
    PushGroupRoster env params =
      some (.ok (final,
        deleteCallsSpec current.members params ++
          pushCallsSpec current.members params)) := by
  unfold PushGroupRoster
  rw [h1]
  simp only
  rw [runDeletes_eq_spec env.deleteResult hdel params hparams current.members hcur]
  simp only
  rw [runPushes_eq_spec env.pushResult hpush current.members hcur params hparams]
  simp only
  rw [h2]

/-- Current roster of the concrete C7 instantiation: members A and B. -/
def c7Current : GroupRoster :=
  { id := some "grp", group := Option.none
    members := [{ id := some "A", memberType := some "PERSON" },
                { id := some "B", memberType := some "PERSON" }] }

/-- Desired members of the concrete C7 instantiation: B and C. -/
def c7Desired : List GroupMember :=
  [{ id := some "B", memberType := some "PERSON" },
   { id := some "C", memberType := some "PERSON" }]

/-- Roster returned by the final fetch of the concrete C7 instantiation. -/
def c7Final : GroupRoster :=
  { id := some "grp", group := Option.none, members := c7Desired }

/-- Environment of the concrete C7 instantiation: both fetches succeed
and every mutation call succeeds. -/
def c7Env : RosterEnv :=
  { firstFetch := .ok c7Current
    deleteResult := fun _ => .ok ()
    pushResult := fun m => .ok m
    secondFetch := .ok c7Final }

/-- Concrete instantiation of the C7 reconciliation theorem: with current
roster A,B and desired roster B,C the mutation calls are exactly
delete(A) then create(C), and the re-fetched roster is returned. -/
theorem c7_roster_reconciliation_witness :
    PushGroupRoster c7Env c7Desired =
      some (.ok (c7Final,
        [.deleteMembership "A",
         .pushMembership { id := some "C", memberType := some "PERSON" }])) := by
  have h := c7_roster_reconciliation c7Env c7Desired c7Current c7Final rfl
    (by decide) (by decide) (fun i => rfl) (fun m => ⟨m, rfl⟩) rfl
  rw [h]
  rfl

end XmattersGo
